import Mathlib

/-!
Verification of the ChazeFashion storefront core (catalog/views.py,
catalog/models.py) against its specification.  The Django views and
models are shallowly embedded: database tables become lists of records,
request parameters become `Option String` values, Python `int(...)` and
`float(...)` become explicit string parsers returning `Option`.
-/

/-- Value of a decimal-digit list, most significant first (helper for the
string-to-number parsers). -/
def digitsVal (l : List Char) : Nat :=
  l.foldl (fun a c => a * 10 + (c.toNat - 48)) 0

/-- Strip leading and trailing spaces, as Python `int`/`float` do before
parsing. -/
def stripSpaces (l : List Char) : List Char :=
  ((l.dropWhile (· = ' ')).reverse.dropWhile (· = ' ')).reverse

/-- Digits-only body of the integer parser: at least one digit, all digits. -/
def pyIntCore (l : List Char) : Option Int :=
  if l ≠ [] ∧ l.all (·.isDigit) then some (digitsVal l) else none

/-- Model of Python `int(s)` on strings: optional surrounding spaces, optional
sign, then one or more digits; anything else raises `ValueError`, modelled as
`none`. -/
def pyInt (s : String) : Option Int :=
  match stripSpaces s.toList with
  | '-' :: rest => (pyIntCore rest).map (fun n => -n)
  | '+' :: rest => pyIntCore rest
  | l => pyIntCore l

/-- Body of the float parser: digits, optionally a point and more digits,
with at least one digit overall. -/
def pyFloatCore (l : List Char) : Option ℚ :=
  match l.span (·.isDigit) with
  | (intPart, []) =>
      if intPart ≠ [] then some (digitsVal intPart) else none
  | (intPart, '.' :: frac) =>
      if frac.all (·.isDigit) ∧ (intPart ≠ [] ∨ frac ≠ []) then
        some (mkRat (digitsVal intPart * 10 ^ frac.length + digitsVal frac) (10 ^ frac.length))
      else none
  | _ => none

/-- Model of Python `float(s)` on the decimal forms the views receive:
optional surrounding spaces, optional sign, digits with an optional decimal
point; anything else raises `ValueError`, modelled as `none`. -/
def pyFloat (s : String) : Option ℚ :=
  match stripSpaces s.toList with
  | '-' :: rest => (pyFloatCore rest).map (fun q => -q)
  | '+' :: rest => pyFloatCore rest
  | l => pyFloatCore l

/-! ## Cart data and the bulk-update view (`cart`, views.py 172-204)

A `CartItem` row carries its primary key `id`, the referenced product and a
quantity (`PositiveIntegerField`).  The POST body of the cart view is a
partial map from item ids to the submitted string for key `quantity_{id}`.
-/

structure CartItem where
  id : Nat
  productId : Nat
  quantity : Nat
  deriving DecidableEq, Repr

/-- Quantity the cart view computes for one item:
`int(request.POST.get(f'quantity_{item.id}', item.quantity))`.  A missing key
falls back to the item's current quantity (an `int`, so parsing succeeds);
a present key is parsed with `int(...)`, `none` modelling `ValueError`. -/
def qtyOf (post : Nat → Option String) (it : CartItem) : Option Int :=
  match post it.id with
  | some s => pyInt s
  | none => some (it.quantity : Int)

/-- The POST branch of the `cart` view: iterate over the cart's items in
order; for each, parse the submitted quantity; set it if positive, delete the
item if ≤ 0.  Each `item.save()` / `item.delete()` hits the database at once;
when a parse raises `ValueError` the loop stops (already-processed items keep
their new state, the failing item and all later ones are untouched) and the
view reports an error, modelled by the `Bool` component. -/
def bulkUpdate (post : Nat → Option String) : List CartItem → List CartItem × Bool
  | [] => ([], false)
  | it :: rest =>
    match qtyOf post it with
    | none => (it :: rest, true)
    | some q =>
      if 0 < q then
        let r := bulkUpdate post rest
        ({ it with quantity := q.toNat } :: r.1, r.2)
      else
        bulkUpdate post rest

/-- Effect of a successful (no `ValueError`) pass on a single item: positive
quantity updates the row, non-positive deletes it. -/
def stepItem (post : Nat → Option String) (it : CartItem) : Option CartItem :=
  match qtyOf post it with
  | some q => if 0 < q then some { it with quantity := q.toNat } else none
  | none => none

lemma bulkUpdate_all_parsed (post : Nat → Option String) :
    ∀ l : List CartItem, (∀ it ∈ l, qtyOf post it ≠ none) →
    bulkUpdate post l = (l.filterMap (stepItem post), false) := by
  intro l
  induction l with
  | nil => intro _; rfl
  | cons it rest ih =>
    intro h
    have hit := h it (List.mem_cons_self it rest)
    have hrest : ∀ x ∈ rest, qtyOf post x ≠ none :=
      fun x hx => h x (List.mem_cons_of_mem it hx)
    cases hq : qtyOf post it with
    | none => exact absurd hq hit
    | some q =>
      by_cases hpos : 0 < q
      · simp only [bulkUpdate, hq, if_pos hpos, ih hrest, List.filterMap_cons,
          stepItem, hq, if_pos hpos]
      · simp only [bulkUpdate, hq, if_neg hpos, ih hrest, List.filterMap_cons,
          stepItem, hq, if_neg hpos]

lemma bulkUpdate_stops_at_failure (post : Nat → Option String) :
    ∀ (l1 : List CartItem) (bad : CartItem) (l2 : List CartItem),
    (∀ it ∈ l1, qtyOf post it ≠ none) → qtyOf post bad = none →
    bulkUpdate post (l1 ++ bad :: l2) =
      (l1.filterMap (stepItem post) ++ bad :: l2, true) := by
  intro l1
  induction l1 with
  | nil =>
    intro bad l2 _ hbad
    simp only [List.nil_append, List.filterMap_nil, bulkUpdate, hbad]
  | cons it rest ih =>
    intro bad l2 h hbad
    have hit := h it (List.mem_cons_self it rest)
    have hrest : ∀ x ∈ rest, qtyOf post x ≠ none :=
      fun x hx => h x (List.mem_cons_of_mem it hx)
    cases hq : qtyOf post it with
    | none => exact absurd hq hit
    | some q =>
      by_cases hpos : 0 < q
      · simp only [List.cons_append, bulkUpdate, hq, if_pos hpos, List.append_eq,
          ih bad l2 hrest hbad, List.filterMap_cons, stepItem, hq, if_pos hpos,
          List.cons_append]
      · simp only [List.cons_append, bulkUpdate, hq, if_neg hpos, List.append_eq,
          ih bad l2 hrest hbad, List.filterMap_cons, stepItem, hq, if_neg hpos]

/-- Concrete POST body for the bulk-update counterexample: item 1 gets "3",
item 2 gets the non-numeric "x". -/
def cexPost : Nat → Option String :=
  fun n => if n = 1 then some "3" else if n = 2 then some "x" else none

/-- Concrete cart contents for the bulk-update counterexample. -/
def cexItems : List CartItem := [⟨1, 10, 5⟩, ⟨2, 11, 5⟩]

/-- Claim C1 (counterexample): with items ⟨id 1, qty 5⟩ and ⟨id 2, qty 5⟩ and
POST values "3" and "x", the supplied quantity "x" is non-numeric and a
validation failure is reported, yet item 1 has still been mutated to quantity
3 — the bulk update is not all-or-nothing. -/
theorem bulk_update_not_atomic :
    pyInt "x" = none ∧
    (bulkUpdate cexPost cexItems).2 = true ∧
    (bulkUpdate cexPost cexItems).1 = [⟨1, 10, 3⟩, ⟨2, 11, 5⟩] ∧
    (bulkUpdate cexPost cexItems).1 ≠ cexItems := by
  refine ⟨rfl, rfl, rfl, ?_⟩
  decide

/-- Claim C1 (amended): a bulk cart update is applied item by item in cart
order.  If every supplied quantity parses, every item is updated (positive
value) or deleted (value ≤ 0) and no failure is reported; if some supplied
value is non-numeric, a validation failure is reported and the items before
the first failing one have already been updated or deleted, while the failing
item and all later items keep their previous state. -/
theorem bulk_update_prefix_applied (post : Nat → Option String)
    (l l1 l2 : List CartItem) (bad : CartItem) :
    ((∀ it ∈ l, qtyOf post it ≠ none) →
      bulkUpdate post l = (l.filterMap (stepItem post), false)) ∧
    ((∀ it ∈ l1, qtyOf post it ≠ none) → qtyOf post bad = none →
      bulkUpdate post (l1 ++ bad :: l2) =
        (l1.filterMap (stepItem post) ++ bad :: l2, true)) :=
  ⟨bulkUpdate_all_parsed post l,
   fun h1 hbad => bulkUpdate_stops_at_failure post l1 bad l2 h1 hbad⟩

lemma bulkUpdate_ids_sub (post : Nat → Option String) :
    ∀ l : List CartItem, ∀ x ∈ (bulkUpdate post l).1, x.id ∈ l.map CartItem.id := by
  intro l
  induction l with
  | nil => intro x hx; simp [bulkUpdate] at hx
  | cons it rest ih =>
    intro x hx
    cases hq : qtyOf post it with
    | none =>
      simp only [bulkUpdate, hq] at hx
      exact List.mem_map_of_mem CartItem.id hx
    | some q =>
      by_cases hpos : 0 < q
      · simp only [bulkUpdate, hq, if_pos hpos, List.mem_cons] at hx
        rcases hx with hx | hx
        · subst hx; simp
        · simp only [List.map_cons, List.mem_cons]
          exact Or.inr (ih x hx)
      · simp only [bulkUpdate, hq, if_neg hpos] at hx
        simp only [List.map_cons, List.mem_cons]
        exact Or.inr (ih x hx)

lemma bulkUpdate_filter_id_nil (post : Nat → Option String) (n : Nat)
    (l : List CartItem) (h : ∀ x ∈ l, x.id ≠ n) :
    (bulkUpdate post l).1.filter (fun x => x.id == n) = [] := by
  rw [List.filter_eq_nil_iff]
  intro x hx
  have hid := bulkUpdate_ids_sub post l x hx
  rcases List.mem_map.mp hid with ⟨y, hy, hyx⟩
  simp only [beq_iff_eq]
  rw [← hyx]
  exact h y hy

lemma filter_id_nil_of_ne (n : Nat) (l : List CartItem)
    (h : ∀ x ∈ l, x.id ≠ n) :
    l.filter (fun x => x.id == n) = [] := by
  rw [List.filter_eq_nil_iff]
  intro x hx
  simp only [beq_iff_eq]
  exact h x hx

lemma raw_filter_single (it : CartItem) :
    ∀ (l1 : List CartItem) (l2 : List CartItem),
    ((l1 ++ it :: l2).map CartItem.id).Nodup →
    (l1 ++ it :: l2).filter (fun x => x.id == it.id) = [it] := by
  intro l1
  induction l1 with
  | nil =>
    intro l2 h
    simp only [List.nil_append, List.map_cons, List.nodup_cons] at h
    have hl2 : ∀ x ∈ l2, x.id ≠ it.id := by
      intro x hx hcon
      exact h.1 (hcon ▸ List.mem_map_of_mem CartItem.id hx)
    simp only [List.nil_append]
    rw [List.filter_cons]
    simp only [beq_self_eq_true, if_pos, filter_id_nil_of_ne it.id l2 hl2]
  | cons a l1 ih =>
    intro l2 h
    simp only [List.cons_append, List.map_cons, List.nodup_cons, List.map_append] at h
    have hane : a.id ≠ it.id := by
      intro hcon
      apply h.1
      rw [hcon]
      simp
    rw [List.cons_append, List.filter_cons]
    simp only [beq_iff_eq, hane, ite_false]
    apply ih
    simpa using h.2

lemma bulkUpdate_keeps_absent (post : Nat → Option String) (it : CartItem)
    (l2 : List CartItem) (habs : post it.id = none) (hpos : 0 < it.quantity) :
    ∀ l1 : List CartItem, ((l1 ++ it :: l2).map CartItem.id).Nodup →
    (bulkUpdate post (l1 ++ it :: l2)).1.filter (fun x => x.id == it.id) = [it] := by
  intro l1
  induction l1 with
  | nil =>
    intro h
    have hq : qtyOf post it = some (it.quantity : Int) := by
      simp [qtyOf, habs]
    have hqpos : (0 : Int) < (it.quantity : Int) := Int.ofNat_pos.mpr hpos
    simp only [List.nil_append, List.map_cons, List.nodup_cons] at h
    have hl2 : ∀ x ∈ l2, x.id ≠ it.id := by
      intro x hx hcon
      exact h.1 (hcon ▸ List.mem_map_of_mem CartItem.id hx)
    simp only [List.nil_append, bulkUpdate, hq, if_pos hqpos]
    rw [List.filter_cons]
    have hit : ({ it with quantity := ((it.quantity : Int)).toNat } : CartItem) = it := by
      simp [Int.toNat_natCast]
    rw [hit]
    simp only [beq_self_eq_true, if_pos, bulkUpdate_filter_id_nil post it.id l2 hl2]
  | cons a l1 ih =>
    intro h
    simp only [List.cons_append, List.map_cons, List.nodup_cons] at h
    have hane : a.id ≠ it.id := by
      intro hcon
      apply h.1
      rw [hcon]
      simp
    cases hq : qtyOf post a with
    | none =>
      simp only [List.cons_append, bulkUpdate, hq]
      rw [List.filter_cons]
      simp only [beq_iff_eq, hane, ite_false]
      exact raw_filter_single it l1 l2 h.2
    | some q =>
      by_cases hqpos : 0 < q
      · simp only [List.cons_append, bulkUpdate, hq, if_pos hqpos, List.append_eq]
        rw [List.filter_cons]
        simp only [beq_iff_eq, hane, ite_false]
        exact ih h.2
      · simp only [List.cons_append, bulkUpdate, hq, if_neg hqpos, List.append_eq]
        exact ih h.2

/-- Claim C10: in a bulk cart update, an item of the caller's cart whose
`quantity_{id}` key is absent from the POST body keeps its current (positive)
quantity: the code falls back to `item.quantity` itself, so the item is
neither changed nor deleted — after the update the cart still contains
exactly that item, unchanged, under its id (ids assumed distinct, as they are
primary keys). -/
theorem bulk_update_absent_key_unchanged (post : Nat → Option String)
    (l1 l2 : List CartItem) (it : CartItem)
    (habs : post it.id = none) (hpos : 0 < it.quantity)
    (hids : ((l1 ++ it :: l2).map CartItem.id).Nodup) :
    (bulkUpdate post (l1 ++ it :: l2)).1.filter (fun x => x.id == it.id) = [it] :=
  bulkUpdate_keeps_absent post it l2 habs hpos l1 hids

/-- Claim C10 (witness): item 3 has no key in the counterexample POST body
(which only mentions ids 1 and 2) and survives the bulk update unchanged. -/
theorem bulk_update_absent_key_unchanged_witness :
    (cexPost 3 = none ∧ 0 < (7 : Nat) ∧
      (([(⟨1, 10, 5⟩ : CartItem)] ++ (⟨3, 12, 7⟩ : CartItem) :: []).map CartItem.id).Nodup) ∧
    (bulkUpdate cexPost ([(⟨1, 10, 5⟩ : CartItem)] ++ (⟨3, 12, 7⟩ : CartItem) :: [])).1.filter
      (fun x => x.id == (3 : Nat)) = [(⟨3, 12, 7⟩ : CartItem)] :=
  ⟨⟨by decide, by decide, by decide⟩,
   bulk_update_absent_key_unchanged cexPost [(⟨1, 10, 5⟩ : CartItem)] [] ⟨3, 12, 7⟩
     (by decide) (by decide) (by decide)⟩

/-! ## Add to cart (`add_to_cart`, views.py 140-170) -/

/-- Quantity parsing of `add_to_cart`:
`int(request.POST.get('quantity', 1))` with fallback to 1 on `ValueError` /
`TypeError`, then clamped to 1 when ≤ 0. -/
def parseQty (postQ : Option String) : Int :=
  match postQ with
  | some s =>
    match pyInt s with
    | some q => if q ≤ 0 then 1 else q
    | none => 1
  | none => 1

/-- Increment the quantity of the first cart item for the given product
(the row `get_or_create` finds). -/
def incFirst (pid : Nat) (q : Nat) : List CartItem → List CartItem
  | [] => []
  | it :: rest =>
    if it.productId = pid then { it with quantity := it.quantity + q } :: rest
    else it :: incFirst pid q rest

/-- The `add_to_cart` view on the user's cart items: parse the requested
quantity; `CartItem.objects.get_or_create(cart=cart, product=product,
defaults=...)` either finds the existing row — in which case its quantity is
incremented by the requested quantity and saved — or inserts a new row (fresh
primary key `newId`) with the requested quantity. -/
def add_to_cart (items : List CartItem) (pid : Nat) (postQ : Option String)
    (newId : Nat) : List CartItem :=
  let q := (parseQty postQ).toNat
  match items.find? (fun x => x.productId == pid) with
  | some _ => incFirst pid q items
  | none => items ++ [⟨newId, pid, q⟩]

lemma parseQty_pos (postQ : Option String) : 1 ≤ parseQty postQ := by
  cases postQ with
  | none => exact le_refl (1 : Int)
  | some s =>
    cases hq : pyInt s with
    | none => simp [parseQty, hq]
    | some q =>
      simp only [parseQty, hq]
      by_cases h : q ≤ 0
      · rw [if_pos h]
      · rw [if_neg h]; omega

lemma incFirst_on_split (pid : Nat) (q : Nat) :
    ∀ (l1 : List CartItem) (it : CartItem) (l2 : List CartItem),
    (∀ x ∈ l1, x.productId ≠ pid) → it.productId = pid →
    incFirst pid q (l1 ++ it :: l2) =
      l1 ++ { it with quantity := it.quantity + q } :: l2 := by
  intro l1
  induction l1 with
  | nil =>
    intro it l2 _ hit
    simp only [List.nil_append, incFirst, if_pos hit]
  | cons a l1 ih =>
    intro it l2 h1 hit
    have ha : a.productId ≠ pid := h1 a (List.mem_cons_self a l1)
    simp only [List.cons_append, incFirst, if_neg ha, List.append_eq]
    rw [ih it l2 (fun x hx => h1 x (List.mem_cons_of_mem a hx)) hit]

lemma find_none_of_no_match (pid : Nat) (l1 : List CartItem)
    (h : ∀ x ∈ l1, x.productId ≠ pid) :
    l1.find? (fun x => x.productId == pid) = none := by
  rw [List.find?_eq_none]
  intro x hx
  simp only [beq_iff_eq]
  exact h x hx

/-- Claim C3: in `add_to_cart`, the requested quantity defaults to 1 when the
POST value is missing, non-numeric, or ≤ 0 (and is always ≥ 1); if a cart item
for the product already exists, that item's quantity is incremented by the
requested quantity and no new row is created; otherwise a single new row with
exactly the requested quantity is appended. -/
theorem add_to_cart_merge_semantics (items l1 l2 : List CartItem)
    (pid newId : Nat) (postQ : Option String) (it : CartItem) (s : String) :
    (1 ≤ parseQty postQ) ∧
    (postQ = none → parseQty postQ = 1) ∧
    (postQ = some s → pyInt s = none → parseQty postQ = 1) ∧
    (∀ q : Int, postQ = some s → pyInt s = some q → q ≤ 0 → parseQty postQ = 1) ∧
    ((∀ x ∈ items, x.productId ≠ pid) →
      add_to_cart items pid postQ newId =
        items ++ [⟨newId, pid, (parseQty postQ).toNat⟩]) ∧
    ((∀ x ∈ l1, x.productId ≠ pid) → it.productId = pid →
      add_to_cart (l1 ++ it :: l2) pid postQ newId =
        l1 ++ { it with quantity := it.quantity + (parseQty postQ).toNat } :: l2) := by
  refine ⟨parseQty_pos postQ, ?_, ?_, ?_, ?_, ?_⟩
  · intro h; subst h; rfl
  · intro h hbad; subst h; simp [parseQty, hbad]
  · intro q h hq hle; subst h; simp [parseQty, hq, if_pos hle]
  · intro h
    unfold add_to_cart
    rw [find_none_of_no_match pid items h]
  · intro h1 hit
    unfold add_to_cart
    have hfind : (l1 ++ it :: l2).find? (fun x => x.productId == pid) = some it := by
      rw [List.find?_append, find_none_of_no_match pid l1 h1]
      simp [List.find?_cons, hit]
    rw [hfind]
    exact incFirst_on_split pid (parseQty postQ).toNat l1 it l2 h1 hit

/-- Claim C3 (witness): adding product 10 with POST value "3" to a cart
already holding quantity 2 of it yields one row with quantity 5 (the spec's
2 + 3 = 5 example, with the existing row in the middle of the cart). -/
theorem add_to_cart_merge_semantics_witness :
    ((∀ x ∈ [(⟨7, 99, 4⟩ : CartItem)], x.productId ≠ 10) ∧
      (⟨1, 10, 2⟩ : CartItem).productId = 10) ∧
    add_to_cart ([(⟨7, 99, 4⟩ : CartItem)] ++ (⟨1, 10, 2⟩ : CartItem) :: []) 10
        (some "3") 42 =
      [(⟨7, 99, 4⟩ : CartItem)] ++ (⟨1, 10, 5⟩ : CartItem) :: [] :=
  ⟨⟨by decide, by decide⟩,
   (add_to_cart_merge_semantics [] [(⟨7, 99, 4⟩ : CartItem)] [] 10 42 (some "3")
      ⟨1, 10, 2⟩ "3").2.2.2.2.2 (by decide) (by decide)⟩

/-- Claim C1 (amended, witness): the amended statement evaluated on the
counterexample data. -/
theorem bulk_update_prefix_applied_witness :
    ((∀ it ∈ [(⟨1, 10, 5⟩ : CartItem)], qtyOf cexPost it ≠ none) ∧
      qtyOf cexPost ⟨2, 11, 5⟩ = none) ∧
    bulkUpdate cexPost ([⟨1, 10, 5⟩] ++ ⟨2, 11, 5⟩ :: []) =
      ([(⟨1, 10, 5⟩ : CartItem)].filterMap (stepItem cexPost) ++ ⟨2, 11, 5⟩ :: [], true) :=
  ⟨⟨by decide, by decide⟩,
   (bulk_update_prefix_applied cexPost [] [⟨1, 10, 5⟩] [] ⟨2, 11, 5⟩).2
     (by decide) (by decide)⟩

/-! ## Remove from cart (`remove_from_cart`, views.py 206-217)

`get_object_or_404(CartItem, id=item_id, cart__user=request.user)` scopes the
lookup to the requesting user's cart; a failed lookup raises `Http404`, which
the surrounding `except Exception` turns into an error message — in either
failure the view redirects without deleting anything.  The cart-item table is
modelled across users: each row carries the id of the user owning its cart.
-/

structure DbCartItem where
  id : Nat
  ownerId : Nat
  productId : Nat
  quantity : Nat
  deriving DecidableEq, Repr

/-- Whether a row matches the ownership-scoped lookup
`id=item_id, cart__user=request.user`. -/
def ownedMatch (userId itemId : Nat) (it : DbCartItem) : Bool :=
  it.id == itemId && it.ownerId == userId

/-- The `remove_from_cart` view: look the item up scoped to the caller's
cart; on success delete exactly the matching row(s) and report success; on
lookup failure (unknown id or another user's item) delete nothing and report
an error.  Returns the table afterwards and whether the deletion happened. -/
def remove_from_cart (db : List DbCartItem) (userId itemId : Nat) :
    List DbCartItem × Bool :=
  match db.find? (ownedMatch userId itemId) with
  | some _ => (db.filter (fun it => !ownedMatch userId itemId it), true)
  | none => (db, false)

lemma find_ownedMatch_none (db : List DbCartItem) (userId itemId : Nat)
    (h : ∀ it ∈ db, ¬(it.id = itemId ∧ it.ownerId = userId)) :
    db.find? (ownedMatch userId itemId) = none := by
  rw [List.find?_eq_none]
  intro x hx
  simp only [ownedMatch, Bool.and_eq_true, beq_iff_eq]
  exact fun hc => h x hx ⟨hc.1, hc.2⟩

/-- Claim C7: a remove-cart-item request deletes the item iff a row with the
given id exists in a cart owned by the requesting user; when no such row
exists (unknown id, or the row belongs to a different user) the view reports
failure and the table is completely unchanged — in particular no other
user's item is ever deleted, and rows not matching the scoped lookup always
survive. -/
theorem remove_from_cart_ownership (db : List DbCartItem) (userId itemId : Nat) :
    ((remove_from_cart db userId itemId).2 = true ↔
      ∃ it ∈ db, it.id = itemId ∧ it.ownerId = userId) ∧
    (∀ it ∈ db, ¬(it.id = itemId ∧ it.ownerId = userId) →
      it ∈ (remove_from_cart db userId itemId).1) ∧
    (∀ it ∈ (remove_from_cart db userId itemId).1, it ∈ db) ∧
    ((remove_from_cart db userId itemId).2 = false →
      (remove_from_cart db userId itemId).1 = db) ∧
    ((remove_from_cart db userId itemId).2 = true →
      ∀ it ∈ (remove_from_cart db userId itemId).1,
        ¬(it.id = itemId ∧ it.ownerId = userId)) := by
  constructor
  · constructor
    · intro h
      cases hf : db.find? (ownedMatch userId itemId) with
      | none => simp [remove_from_cart, hf] at h
      | some x =>
        have hx := List.find?_some hf
        have hmem := List.mem_of_find?_eq_some hf
        simp only [ownedMatch, Bool.and_eq_true, beq_iff_eq] at hx
        exact ⟨x, hmem, hx.1, hx.2⟩
    · rintro ⟨it, hmem, hid, hown⟩
      cases hf : db.find? (ownedMatch userId itemId) with
      | none =>
        rw [List.find?_eq_none] at hf
        exact absurd (by simp [ownedMatch, hid, hown]) (hf it hmem)
      | some x => simp [remove_from_cart, hf]
  constructor
  · intro it hmem hno
    cases hf : db.find? (ownedMatch userId itemId) with
    | none => simp [remove_from_cart, hf, hmem]
    | some x =>
      simp only [remove_from_cart, hf, List.mem_filter]
      refine ⟨hmem, ?_⟩
      simp only [ownedMatch, Bool.not_eq_eq_eq_not, Bool.not_true,
        Bool.and_eq_false_iff]
      by_cases hid : it.id = itemId
      · right
        simp only [beq_eq_false_iff_ne, ne_eq]
        exact fun hc => hno ⟨hid, hc⟩
      · left
        simp only [beq_eq_false_iff_ne, ne_eq]
        exact hid
  constructor
  · intro it hmem
    cases hf : db.find? (ownedMatch userId itemId) with
    | none => simpa [remove_from_cart, hf] using hmem
    | some x =>
      simp only [remove_from_cart, hf, List.mem_filter] at hmem
      exact hmem.1
  constructor
  · intro h
    cases hf : db.find? (ownedMatch userId itemId) with
    | none => simp [remove_from_cart, hf]
    | some x => simp [remove_from_cart, hf] at h
  · intro h it hmem hc
    cases hf : db.find? (ownedMatch userId itemId) with
    | none => simp [remove_from_cart, hf] at h
    | some x =>
      simp only [remove_from_cart, hf, List.mem_filter] at hmem
      have := hmem.2
      simp only [ownedMatch, Bool.not_eq_eq_eq_not, Bool.not_true,
        Bool.and_eq_false_iff, beq_eq_false_iff_ne, ne_eq] at this
      rcases this with h1 | h1
      · exact h1 hc.1
      · exact h1 hc.2

/-- Claim C7 (witness): with user 1 owning item 5 and user 2 owning item 6,
removing item 5 as user 1 succeeds, while the failure clauses hold for the
attempt by user 2 on item 5 (cross-user), which leaves the table unchanged. -/
theorem remove_from_cart_ownership_witness :
    ((remove_from_cart [⟨5, 1, 10, 2⟩, ⟨6, 2, 11, 1⟩] 1 5).2 = true) ∧
    ((remove_from_cart [⟨5, 1, 10, 2⟩, ⟨6, 2, 11, 1⟩] 2 5).2 = false →
      (remove_from_cart [⟨5, 1, 10, 2⟩, ⟨6, 2, 11, 1⟩] 2 5).1 =
        [⟨5, 1, 10, 2⟩, ⟨6, 2, 11, 1⟩]) :=
  ⟨(remove_from_cart_ownership [⟨5, 1, 10, 2⟩, ⟨6, 2, 11, 1⟩] 1 5).1.mpr
    ⟨⟨5, 1, 10, 2⟩, by decide, by decide, by decide⟩,
   (remove_from_cart_ownership [⟨5, 1, 10, 2⟩, ⟨6, 2, 11, 1⟩] 2 5).2.2.2.1⟩

/-! ## Wishlist (`add_to_wishlist` / `remove_from_wishlist`, views.py 230-263)

The wishlist is the set of product ids referenced by the user's `Wishlist`
row through the many-to-many `products` relation, modelled as a list.  Both
views first check membership with `products.filter(pr_id=product_id).exists()`.
-/

/-- Message reported by the wishlist views. -/
inductive WlMsg where
  | added
  | alreadyPresent
  | removed
  | notPresent
  deriving DecidableEq, Repr

/-- The `add_to_wishlist` view: if the product is already referenced, report
"already in your wishlist" and change nothing; otherwise `products.add`. -/
def add_to_wishlist (wl : List Nat) (pid : Nat) : List Nat × WlMsg :=
  if pid ∈ wl then (wl, WlMsg.alreadyPresent) else (wl ++ [pid], WlMsg.added)

/-- The `remove_from_wishlist` view: if the product is referenced,
`products.remove` it and report success; otherwise report "was not in your
wishlist" without failing. -/
def remove_from_wishlist (wl : List Nat) (pid : Nat) : List Nat × WlMsg :=
  if pid ∈ wl then (wl.filter (fun x => x ≠ pid), WlMsg.removed)
  else (wl, WlMsg.notPresent)

/-- Iterated wishlist adds (used to state that no sequence of add calls can
ever create a duplicate product reference). -/
def wlAddAll (wl : List Nat) (pids : List Nat) : List Nat :=
  pids.foldl (fun w p => (add_to_wishlist w p).1) wl

lemma add_to_wishlist_nodup (wl : List Nat) (pid : Nat) (h : wl.Nodup) :
    (add_to_wishlist wl pid).1.Nodup := by
  unfold add_to_wishlist
  by_cases hm : pid ∈ wl
  · simpa [hm] using h
  · simp only [hm, if_neg, ite_false]
    rw [List.nodup_append]
    refine ⟨h, List.nodup_singleton pid, ?_⟩
    intro a ha hc
    rw [List.mem_singleton] at hc
    subst hc
    exact hm ha

lemma wlAddAll_nodup (pids : List Nat) :
    ∀ wl : List Nat, wl.Nodup → (wlAddAll wl pids).Nodup := by
  induction pids with
  | nil => intro wl h; exact h
  | cons p rest ih =>
    intro wl h
    exact ih (add_to_wishlist wl p).1 (add_to_wishlist_nodup wl p h)

/-- Claim C6: wishlist add and remove are idempotent set operations — adding
an already-present product leaves the wishlist unchanged (same size) and
reports "already present"; adding a new product appends exactly it; removing
an absent product leaves the wishlist unchanged and reports "not present"
rather than failing; removing a present product removes it; and no sequence
of add calls starting from a duplicate-free wishlist ever produces a
duplicate product reference. -/
theorem wishlist_idempotent_set_ops (wl : List Nat) (pid : Nat)
    (pids : List Nat) :
    (pid ∈ wl → add_to_wishlist wl pid = (wl, WlMsg.alreadyPresent)) ∧
    (pid ∉ wl → add_to_wishlist wl pid = (wl ++ [pid], WlMsg.added)) ∧
    (pid ∉ wl → remove_from_wishlist wl pid = (wl, WlMsg.notPresent)) ∧
    (pid ∈ wl → (remove_from_wishlist wl pid).2 = WlMsg.removed ∧
      pid ∉ (remove_from_wishlist wl pid).1) ∧
    (wl.Nodup → (wlAddAll wl pids).Nodup) := by
  refine ⟨?_, ?_, ?_, ?_, fun h => wlAddAll_nodup pids wl h⟩
  · intro h; simp [add_to_wishlist, h]
  · intro h; simp [add_to_wishlist, h]
  · intro h; simp [remove_from_wishlist, h]
  · intro h
    refine ⟨by simp [remove_from_wishlist, h], ?_⟩
    simp [remove_from_wishlist, h, List.mem_filter]

/-- Claim C6 (witness): on the wishlist {4, 9}, re-adding 4 reports "already
present" and leaves the set at size 2, and removing the absent 7 reports "not
present" and changes nothing. -/
theorem wishlist_idempotent_set_ops_witness :
    (4 ∈ [4, 9] ∧ (7 : Nat) ∉ [4, 9]) ∧
    add_to_wishlist [4, 9] 4 = ([4, 9], WlMsg.alreadyPresent) ∧
    remove_from_wishlist [4, 9] 7 = ([4, 9], WlMsg.notPresent) :=
  ⟨⟨by decide, by decide⟩,
   (wishlist_idempotent_set_ops [4, 9] 4 []).1 (by decide),
   (wishlist_idempotent_set_ops [4, 9] 7 []).2.2.1 (by decide)⟩

/-! ## User provisioning signal handlers (models.py 133-192)

Four `post_save` receivers fire, in registration order, when a `User` row is
created: `create_user_profile_and_related_objects` (all three
`get_or_create`s inside one `try/except` that logs and swallows any error),
then `create_user_cart`, `create_user_profile` and `create_user_wishlist`
(one unguarded `get_or_create` each).  Row counts per user are modelled as
naturals; `get_or_create` checks existence and only inserts when the row is
absent, the raw insert failing on a duplicate unique key.
-/

/-- Per-user dependent-row counts (Cart / UserProfile / Wishlist). -/
structure RowState where
  cart : Nat
  profile : Nat
  wishlist : Nat
  deriving DecidableEq, Repr

/-- Raw unique-keyed insert: fails with a duplicate-key error when a row for
the user already exists. -/
def uniqueInsert (n : Nat) : Except String Nat :=
  if n = 0 then Except.ok 1 else Except.error "duplicate key"

/-- Django `Model.objects.get_or_create(user=instance)`: return the existing
row if there is one, otherwise insert. -/
def get_or_create (n : Nat) : Except String Nat :=
  if n = 0 then uniqueInsert n else Except.ok n

/-- One full firing of all four signal handlers on a freshly created user
(the error-free path; failure injection is modelled separately below):
the combined handler runs its three `get_or_create`s, then each of the three
per-entity handlers repeats one of them. -/
def provisionOnce (s : RowState) : Except String RowState := do
  let c1 ← get_or_create s.cart
  let p1 ← get_or_create s.profile
  let w1 ← get_or_create s.wishlist
  let c2 ← get_or_create c1
  let p2 ← get_or_create p1
  let w2 ← get_or_create w1
  pure ⟨c2, p2, w2⟩

/-- `provisionOnce` iterated: the routine invoked `k` times in a row. -/
def provisionIter : Nat → RowState → Except String RowState
  | 0, s => Except.ok s
  | k + 1, s =>
    match provisionOnce s with
    | Except.ok t => provisionIter k t
    | Except.error e => Except.error e

lemma provisionOnce_fresh : provisionOnce ⟨0, 0, 0⟩ = Except.ok ⟨1, 1, 1⟩ := rfl

lemma provisionOnce_stable : provisionOnce ⟨1, 1, 1⟩ = Except.ok ⟨1, 1, 1⟩ := rfl

lemma provisionIter_stable : ∀ k, provisionIter k ⟨1, 1, 1⟩ = Except.ok ⟨1, 1, 1⟩ := by
  intro k
  induction k with
  | zero => rfl
  | succ k ih => simp only [provisionIter, provisionOnce_stable, ih]

/-- Claim C2: after a new user is created the provisioning handlers leave the
user with exactly one UserProfile, one Cart and one Wishlist, and running the
provisioning routine any number of further times neither creates more rows
nor raises a duplicate-key failure — every `get_or_create` finds the existing
row instead of inserting. -/
theorem provisioning_exactly_one (k : Nat) :
    provisionIter (k + 1) ⟨0, 0, 0⟩ = Except.ok ⟨1, 1, 1⟩ := by
  simp only [provisionIter, provisionOnce_fresh]
  exact provisionIter_stable k

/-! Failure injection for claim C9: each of the six `get_or_create` calls may
hit a storage error.  The combined handler catches its own errors (the
remaining calls inside its `try` are skipped, the exception is printed); the
three per-entity handlers are unguarded, so their error propagates out of
`post_save` — past the point where the `User` row was already inserted. -/

/-- Database state at user-creation time: the `User` row plus the dependent
row counts. -/
structure DbState where
  userExists : Bool
  rows : RowState
  deriving DecidableEq, Repr

/-- Infallible `get_or_create` step used once the failure flag for the call
says the storage operation itself succeeds. -/
def gORC (n : Nat) : Nat := if n = 0 then 1 else n

/-- `create_user_profile_and_related_objects`: cart, profile, wishlist in one
`try/except Exception` that logs and swallows.  `f1 f2 f3` tell which of the
three calls (if any) raises; the calls after a raising one are skipped. -/
def combinedHandler (f1 f2 f3 : Bool) (s : RowState) : RowState :=
  if f1 then s
  else
    let s := { s with cart := gORC s.cart }
    if f2 then s
    else
      let s := { s with profile := gORC s.profile }
      if f3 then s
      else { s with wishlist := gORC s.wishlist }

/-- The three unguarded per-entity handlers (`create_user_cart`,
`create_user_profile`, `create_user_wishlist`), fired in order; an error in
one of them (`f4`/`f5`/`f6`) escapes, the later handlers never run, and the
writes made so far stay.  The `Bool` reports whether an exception escaped. -/
def separateHandlers (f4 f5 f6 : Bool) (s : RowState) : RowState × Bool :=
  if f4 then (s, true)
  else
    let s := { s with cart := gORC s.cart }
    if f5 then (s, true)
    else
      let s := { s with profile := gORC s.profile }
      if f6 then (s, true)
      else ({ s with wishlist := gORC s.wishlist }, false)

/-- User creation: the `User` row is inserted (and, in autocommit mode, stays
inserted no matter what the signal handlers later do), then the four handlers
fire.  Returns the resulting database state and whether an exception escaped
the provisioning. -/
def userCreation (f1 f2 f3 f4 f5 f6 : Bool) : DbState × Bool :=
  let r := combinedHandler f1 f2 f3 ⟨0, 0, 0⟩
  let rb := separateHandlers f4 f5 f6 r
  (⟨true, rb.1⟩, rb.2)

/-- First access after creation: the views (`profile`, `cart`, `wishlist`,
`add_to_cart`, …) all start with `Model.objects.get_or_create(user=...)`,
which repairs any dependent row that provisioning failed to create. -/
def repairOnAccess (s : DbState) : DbState :=
  ⟨s.userExists, ⟨gORC s.rows.cart, gORC s.rows.profile, gORC s.rows.wishlist⟩⟩

/-- Claim C9 (counterexample): when the combined handler's first
`get_or_create` fails (caught and logged there) and `create_user_cart`'s
`get_or_create` also hits a storage error, that second error is NOT caught by
any provisioning code: the exception escapes the user-creation routine (the
signup view then reports "Error creating account" even though the `User` row
exists), contradicting "the error is caught and logged". -/
theorem provisioning_error_escapes :
    (userCreation true false false true false false).2 = true ∧
    (userCreation true false false true false false).1.userExists = true ∧
    (userCreation true false false true false false).1.rows = ⟨0, 0, 0⟩ := by
  exact ⟨rfl, rfl, rfl⟩

/-- Claim C9 (amended): a storage error raised inside
`create_user_profile_and_related_objects` is caught and logged there and
aborts nothing; an error in one of the three per-entity handlers escapes the
provisioning (it is only the registration view that catches it, reporting an
account-creation error).  In every case the `User` row exists afterwards, and
whatever dependent rows are missing are created by the idempotent
fetch-or-create the first time they are accessed, ending with exactly one
row of each kind. -/
theorem provisioning_error_amended (f1 f2 f3 f4 f5 f6 : Bool) :
    (userCreation f1 f2 f3 f4 f5 f6).1.userExists = true ∧
    ((userCreation f1 f2 f3 f4 f5 f6).2 = (f4 || f5 || f6)) ∧
    repairOnAccess (userCreation f1 f2 f3 f4 f5 f6).1 = ⟨true, ⟨1, 1, 1⟩⟩ := by
  revert f1 f2 f3 f4 f5 f6
  decide

/-! ## Product catalog filtering (`product_list`, views.py 91-127)

Products are modelled with the columns the filter pipeline touches (the
remaining columns — reviews, stock, dimensions, images, texture … — play no
role in any view modelled here).  Each GET parameter is an `Option String`;
Python truthiness makes both a missing parameter and the empty string skip a
filter.  `icontains` is Django's case-insensitive substring match.
-/

structure Product where
  pr_id : Nat
  pr_cate : String
  pr_name : String
  pr_price : ℚ
  pr_season : String
  pr_fabric : String
  pr_brand : String
  deriving DecidableEq, Repr

/-- Does `needle` occur at the start of `hay`? (character lists) -/
def startsWithCh : List Char → List Char → Bool
  | [], _ => true
  | _ :: _, [] => false
  | a :: as, b :: bs => a == b && startsWithCh as bs

/-- Does `needle` occur anywhere inside `hay`? (character lists) -/
def containsCh (hay needle : List Char) : Bool :=
  match hay with
  | [] => needle.isEmpty
  | _ :: t => startsWithCh needle hay || containsCh t needle

/-- Django `field__icontains=needle`: case-insensitive substring test. -/
def icontains (hay needle : String) : Bool :=
  containsCh hay.toLower.toList needle.toLower.toList

/-- The six GET parameters read by `product_list`. -/
structure FilterParams where
  category : Option String
  season : Option String
  fabric : Option String
  price_min : Option String
  price_max : Option String
  brand : Option String
  deriving DecidableEq, Repr

/-- `if category: products = products.filter(pr_cate=category)`. -/
def stageCategory (f : FilterParams) (ps : List Product) : List Product :=
  match f.category with
  | some c => if c = "" then ps else ps.filter (fun p => p.pr_cate == c)
  | none => ps

/-- `if season: products = products.filter(pr_season=season)`. -/
def stageSeason (f : FilterParams) (ps : List Product) : List Product :=
  match f.season with
  | some c => if c = "" then ps else ps.filter (fun p => p.pr_season == c)
  | none => ps

/-- `if fabric: products = products.filter(pr_fabric__icontains=fabric)`. -/
def stageFabric (f : FilterParams) (ps : List Product) : List Product :=
  match f.fabric with
  | some c => if c = "" then ps else ps.filter (fun p => icontains p.pr_fabric c)
  | none => ps

/-- `if price_min: try: products = products.filter(pr_price__gte=
float(price_min)) except ValueError: pass`. -/
def stagePriceMin (f : FilterParams) (ps : List Product) : List Product :=
  match f.price_min with
  | some c =>
    if c = "" then ps
    else
      match pyFloat c with
      | some q => ps.filter (fun p => q ≤ p.pr_price)
      | none => ps
  | none => ps

/-- `if price_max: try: products = products.filter(pr_price__lte=
float(price_max)) except ValueError: pass`. -/
def stagePriceMax (f : FilterParams) (ps : List Product) : List Product :=
  match f.price_max with
  | some c =>
    if c = "" then ps
    else
      match pyFloat c with
      | some q => ps.filter (fun p => p.pr_price ≤ q)
      | none => ps
  | none => ps

/-- `if brand: products = products.filter(pr_brand__icontains=brand)`. -/
def stageBrand (f : FilterParams) (ps : List Product) : List Product :=
  match f.brand with
  | some c => if c = "" then ps else ps.filter (fun p => icontains p.pr_brand c)
  | none => ps

/-- The `product_list` view: start from `Product.objects.all()` and apply the
six conditional filters in source order. -/
def product_list (ps : List Product) (f : FilterParams) : List Product :=
  stageBrand f (stagePriceMax f (stagePriceMin f
    (stageFabric f (stageSeason f (stageCategory f ps)))))

/-- Spec-side criterion for the category filter: absent (or empty, hence
falsy) means no constraint, otherwise exact match. -/
def catOk (f : FilterParams) (p : Product) : Bool :=
  match f.category with
  | some c => c == "" || p.pr_cate == c
  | none => true

/-- Spec-side criterion for the season filter. -/
def seasonOk (f : FilterParams) (p : Product) : Bool :=
  match f.season with
  | some c => c == "" || p.pr_season == c
  | none => true

/-- Spec-side criterion for the fabric substring filter. -/
def fabricOk (f : FilterParams) (p : Product) : Bool :=
  match f.fabric with
  | some c => c == "" || icontains p.pr_fabric c
  | none => true

/-- Spec-side criterion for the inclusive lower price bound; a malformed
bound imposes no constraint. -/
def priceMinOk (f : FilterParams) (p : Product) : Bool :=
  match f.price_min with
  | some c =>
    if c = "" then true
    else
      match pyFloat c with
      | some q => decide (q ≤ p.pr_price)
      | none => true
  | none => true

/-- Spec-side criterion for the inclusive upper price bound; a malformed
bound imposes no constraint. -/
def priceMaxOk (f : FilterParams) (p : Product) : Bool :=
  match f.price_max with
  | some c =>
    if c = "" then true
    else
      match pyFloat c with
      | some q => decide (p.pr_price ≤ q)
      | none => true
  | none => true

/-- Spec-side criterion for the brand substring filter. -/
def brandOk (f : FilterParams) (p : Product) : Bool :=
  match f.brand with
  | some c => c == "" || icontains p.pr_brand c
  | none => true

/-- Spec-side conjunction of all six (optional) criteria, written down from
the specification's contract for the catalog query. -/
def matchesFilters (f : FilterParams) (p : Product) : Bool :=
  catOk f p && seasonOk f p && fabricOk f p && priceMinOk f p &&
    priceMaxOk f p && brandOk f p

/-- The request with no criteria supplied. -/
def noCriteria : FilterParams := ⟨none, none, none, none, none, none⟩

lemma stageCategory_eq (f : FilterParams) (ps : List Product) :
    stageCategory f ps = ps.filter (catOk f) := by
  unfold stageCategory catOk
  cases f.category with
  | none => simp [List.filter_true]
  | some c =>
    by_cases hc : c = ""
    · subst hc
      simp [List.filter_true]
    · simp only [if_neg hc]
      apply List.filter_congr
      intro p _
      have : (c == "") = false := by simpa using hc
      simp [this]

lemma stageSeason_eq (f : FilterParams) (ps : List Product) :
    stageSeason f ps = ps.filter (seasonOk f) := by
  unfold stageSeason seasonOk
  cases f.season with
  | none => simp [List.filter_true]
  | some c =>
    by_cases hc : c = ""
    · subst hc
      simp [List.filter_true]
    · simp only [if_neg hc]
      apply List.filter_congr
      intro p _
      have : (c == "") = false := by simpa using hc
      simp [this]

lemma stageFabric_eq (f : FilterParams) (ps : List Product) :
    stageFabric f ps = ps.filter (fabricOk f) := by
  unfold stageFabric fabricOk
  cases f.fabric with
  | none => simp [List.filter_true]
  | some c =>
    by_cases hc : c = ""
    · subst hc
      simp [List.filter_true]
    · simp only [if_neg hc]
      apply List.filter_congr
      intro p _
      have : (c == "") = false := by simpa using hc
      simp [this]

lemma stagePriceMin_eq (f : FilterParams) (ps : List Product) :
    stagePriceMin f ps = ps.filter (priceMinOk f) := by
  unfold stagePriceMin priceMinOk
  cases f.price_min with
  | none => simp [List.filter_true]
  | some c =>
    by_cases hc : c = ""
    · subst hc
      simp [List.filter_true]
    · simp only [if_neg hc]
      cases hq : pyFloat c with
      | none => simp [List.filter_true]
      | some q => rfl

lemma stagePriceMax_eq (f : FilterParams) (ps : List Product) :
    stagePriceMax f ps = ps.filter (priceMaxOk f) := by
  unfold stagePriceMax priceMaxOk
  cases f.price_max with
  | none => simp [List.filter_true]
  | some c =>
    by_cases hc : c = ""
    · subst hc
      simp [List.filter_true]
    · simp only [if_neg hc]
      cases hq : pyFloat c with
      | none => simp [List.filter_true]
      | some q => rfl

lemma stageBrand_eq (f : FilterParams) (ps : List Product) :
    stageBrand f ps = ps.filter (brandOk f) := by
  unfold stageBrand brandOk
  cases f.brand with
  | none => simp [List.filter_true]
  | some c =>
    by_cases hc : c = ""
    · subst hc
      simp [List.filter_true]
    · simp only [if_neg hc]
      apply List.filter_congr
      intro p _
      have : (c == "") = false := by simpa using hc
      simp [this]

lemma bool_six_reorder (a b c d e g : Bool) :
    (g && e && d && c && b && a) = (a && b && c && d && e && g) := by
  cases a <;> cases b <;> cases c <;> cases d <;> cases e <;> cases g <;> rfl

lemma product_list_eq_filter (ps : List Product) (f : FilterParams) :
    product_list ps f = ps.filter (matchesFilters f) := by
  unfold product_list
  rw [stageCategory_eq, stageSeason_eq, stageFabric_eq, stagePriceMin_eq,
    stagePriceMax_eq, stageBrand_eq, List.filter_filter, List.filter_filter,
    List.filter_filter, List.filter_filter, List.filter_filter]
  apply List.filter_congr
  intro p _
  rw [bool_six_reorder (catOk f p) (seasonOk f p) (fabricOk f p)
    (priceMinOk f p) (priceMaxOk f p) (brandOk f p)]
  rfl

/-- Claim C4: the catalog query returns exactly the products satisfying the
conjunction of all supplied criteria (category and season exact, fabric and
brand case-insensitive substring, inclusive parsed price bounds); an absent
— or, by Python truthiness, empty — criterion imposes no constraint, and
with no criteria the full catalog is returned in order. -/
theorem product_list_conjunction (ps : List Product) (f : FilterParams) :
    product_list ps f = ps.filter (matchesFilters f) ∧
    product_list ps noCriteria = ps :=
  ⟨product_list_eq_filter ps f, rfl⟩

/-- Claim C5: a supplied but non-parseable price bound is silently treated as
absent — the query result is identical to the one with that bound omitted,
all other supplied criteria still apply, and no error is raised (the
embedding is a total function: the `except ValueError: pass` swallows the
only failure). -/
theorem malformed_price_bound_ignored (ps : List Product) (f : FilterParams)
    (s t : String) :
    (f.price_min = some s → pyFloat s = none →
      product_list ps f = product_list ps { f with price_min := none }) ∧
    (f.price_max = some t → pyFloat t = none →
      product_list ps f = product_list ps { f with price_max := none }) := by
  constructor
  · intro hs hbad
    rw [product_list_eq_filter, product_list_eq_filter]
    apply List.filter_congr
    intro p _
    unfold matchesFilters catOk seasonOk fabricOk priceMinOk priceMaxOk brandOk
    rw [hs]
    simp only [hbad]
    by_cases hc : s = "" <;> simp [hc]
  · intro ht hbad
    rw [product_list_eq_filter, product_list_eq_filter]
    apply List.filter_congr
    intro p _
    unfold matchesFilters catOk seasonOk fabricOk priceMinOk priceMaxOk brandOk
    rw [ht]
    simp only [hbad]
    by_cases hc : t = "" <;> simp [hc]

/-- Concrete catalog for the filter witnesses. -/
def demoCatalog : List Product :=
  [⟨1, "Men", "Shirt", 30, "Summer", "Cotton", "Acme"⟩,
   ⟨2, "Women", "Dress", 50, "Winter", "Silk", "Acme"⟩,
   ⟨3, "Men", "Coat", 150, "Winter", "Wool", "Bloom"⟩]

/-- Claim C5 (witness): `price_min=abc` fails to parse and the query behaves
exactly as if only `category=Men` had been supplied. -/
theorem malformed_price_bound_ignored_witness :
    ((⟨some "Men", none, none, some "abc", none, none⟩ : FilterParams).price_min
        = some "abc" ∧ pyFloat "abc" = none) ∧
    product_list demoCatalog ⟨some "Men", none, none, some "abc", none, none⟩ =
      product_list demoCatalog ⟨some "Men", none, none, none, none, none⟩ :=
  ⟨⟨rfl, rfl⟩,
   (malformed_price_bound_ignored demoCatalog
      ⟨some "Men", none, none, some "abc", none, none⟩ "abc" "zz").1 rfl rfl⟩

/-! ## Cart total and order snapshots (views.py 197-198, models.py 90-96)

`total = sum(item.product.pr_price * item.quantity for item in cart_items)`
follows the foreign key to the product row at display time, so the total
always uses the current catalog price.  An `OrderedItem` row, by contrast,
carries its own `price` column. -/

/-- Current catalog price of a product (the FK dereference
`item.product.pr_price`; 0 for a dangling reference, which cascade deletion
prevents in Django). -/
def priceOf (ps : List Product) (pid : Nat) : ℚ :=
  match ps.find? (fun p => p.pr_id == pid) with
  | some p => p.pr_price
  | none => 0

/-- The cart view's total:
`sum(item.product.pr_price * item.quantity for item in cart_items)`. -/
def cartTotal (ps : List Product) (items : List CartItem) : ℚ :=
  (items.map (fun it => priceOf ps it.productId * (it.quantity : ℚ))).sum

/-- An admin/seller price change on the catalog: update `pr_price` of the
product with the given id, touching nothing else (in particular no
`OrderedItem` row). -/
def updatePrice (ps : List Product) (pid : Nat) (newPrice : ℚ) : List Product :=
  ps.map (fun p => if p.pr_id == pid then { p with pr_price := newPrice } else p)

/-- An order line: product reference, quantity, and its own stored `price`
column (`OrderedItem` in models.py). -/
structure OrderedItem where
  productId : Nat
  quantity : Nat
  price : ℚ
  deriving DecidableEq, Repr

/-- Modelled from the spec: the checkout flow itself is not in the source
(only the `OrderedItem` shape is); per the spec an order line snapshots the
product's price at purchase time into the `price` column. -/
def mkOrderedItem (ps : List Product) (it : CartItem) : OrderedItem :=
  ⟨it.productId, it.quantity, priceOf ps it.productId⟩

/-- Total quantity of a given product over the cart's items. -/
def qtySum (items : List CartItem) (pid : Nat) : ℚ :=
  ((items.filter (fun it => it.productId == pid)).map
    (fun it => (it.quantity : ℚ))).sum

lemma priceOf_update_other (ps : List Product) (pid pid2 : Nat) (q : ℚ)
    (h : pid2 ≠ pid) :
    priceOf (updatePrice ps pid q) pid2 = priceOf ps pid2 := by
  induction ps with
  | nil => rfl
  | cons p ps ih =>
    by_cases hp : p.pr_id = pid
    · have hp2 : (p.pr_id == pid2) = false := by
        simp only [beq_eq_false_iff_ne, ne_eq, hp]
        exact fun hc => h hc.symm
      simp only [updatePrice, List.map_cons, priceOf, List.find?_cons]
      rw [if_pos (by simpa using hp)]
      simp only [hp2]
      simpa [updatePrice, priceOf] using ih
    · simp only [updatePrice, List.map_cons, priceOf, List.find?_cons]
      rw [if_neg (by simpa using hp)]
      cases hm : (p.pr_id == pid2) with
      | true => simp
      | false =>
        simp only []
        simpa [updatePrice, priceOf] using ih

lemma priceOf_update_self (ps : List Product) (pid : Nat) (q : ℚ)
    (h : pid ∈ ps.map Product.pr_id) :
    priceOf (updatePrice ps pid q) pid = q := by
  induction ps with
  | nil => simp at h
  | cons p ps ih =>
    by_cases hp : p.pr_id = pid
    · simp only [updatePrice, List.map_cons, priceOf, List.find?_cons]
      rw [if_pos (by simpa using hp)]
      simp [hp]
    · simp only [List.map_cons, List.mem_cons] at h
      rcases h with h | h
      · exact absurd h.symm hp
      · simp only [updatePrice, List.map_cons, priceOf, List.find?_cons]
        rw [if_neg (by simpa using hp)]
        have hp2 : (p.pr_id == pid) = false := by simpa using hp
        simp only [hp2]
        simpa [updatePrice, priceOf] using ih h

lemma cartTotal_update (ps : List Product) (pid : Nat) (q : ℚ)
    (hmem : pid ∈ ps.map Product.pr_id) :
    ∀ items : List CartItem,
    cartTotal (updatePrice ps pid q) items =
      cartTotal ps items + (q - priceOf ps pid) * qtySum items pid := by
  intro items
  induction items with
  | nil => simp [cartTotal, qtySum]
  | cons it items ih =>
    simp only [cartTotal, qtySum, List.map_cons, List.sum_cons,
      List.filter_cons] at ih ⊢
    by_cases hp : it.productId = pid
    · rw [if_pos (by simpa using hp), hp, priceOf_update_self ps pid q hmem, ih]
      simp only [List.map_cons, List.sum_cons]
      ring
    · rw [if_neg (by simpa using hp),
        priceOf_update_other ps pid it.productId q hp, ih]
      ring

/-- Claim C8: a cart's total is the sum over its items of the product's
current catalog price times the item's quantity, so changing a product's
live price by `q - old` shifts every later total by that difference times the
product's quantity in the cart, and after the change the live lookup yields
the new price; an `OrderedItem` created before the change stores the price at
creation time as its own column — a value the catalog update never touches. -/
theorem cart_total_live_price (ps : List Product) (items : List CartItem)
    (pid : Nat) (q : ℚ) (it : CartItem)
    (hmem : pid ∈ ps.map Product.pr_id) :
    cartTotal (updatePrice ps pid q) items =
      cartTotal ps items + (q - priceOf ps pid) * qtySum items pid ∧
    priceOf (updatePrice ps pid q) pid = q ∧
    (mkOrderedItem ps it).price = priceOf ps it.productId ∧
    (mkOrderedItem (updatePrice ps pid q) it ≠ mkOrderedItem ps it →
      priceOf (updatePrice ps pid q) it.productId ≠ priceOf ps it.productId) := by
  refine ⟨cartTotal_update ps pid q hmem items,
    priceOf_update_self ps pid q hmem, rfl, ?_⟩
  intro h hc
  apply h
  unfold mkOrderedItem
  rw [hc]

/-- Claim C8 (witness): on the demo catalog, raising product 1's price from
30 to 40 raises the total of a cart holding 2 of product 1 and 1 of product 3
from 210 to 230, while an order line created before the change still stores
price 30. -/
theorem cart_total_live_price_witness :
    ((1 : Nat) ∈ demoCatalog.map Product.pr_id) ∧
    cartTotal (updatePrice demoCatalog 1 40) [⟨1, 1, 2⟩, ⟨2, 3, 1⟩] =
      cartTotal demoCatalog [⟨1, 1, 2⟩, ⟨2, 3, 1⟩] +
        (40 - priceOf demoCatalog 1) * qtySum [⟨1, 1, 2⟩, ⟨2, 3, 1⟩] 1 ∧
    priceOf (updatePrice demoCatalog 1 40) 1 = 40 :=
  ⟨by decide,
   (cart_total_live_price demoCatalog [⟨1, 1, 2⟩, ⟨2, 3, 1⟩] 1 40 ⟨1, 1, 2⟩
      (by decide)).1,
   (cart_total_live_price demoCatalog [⟨1, 1, 2⟩, ⟨2, 3, 1⟩] 1 40 ⟨1, 1, 2⟩
      (by decide)).2.1⟩
